import Mathlib

/-!
Verification of the litmusdaily serverless caching endpoints.

Each Vercel handler is embedded as a pure Lean function.  Wall-clock time,
ISO timestamp strings and upstream HTTP results are inputs; a handler
returns its JSON response (modelled as a record whose `Option` fields stand
for JSON keys that are present only on some paths), its updated module-level
cache slot, and a Bool recording whether the invocation reached its upstream
fetch call.  Numbers are rationals; `Math.round` and `toFixed` are modelled
by explicit rounding functions below.
-/

namespace Litmus

/-- Math.round: nearest integer, ties toward positive infinity. -/
def jsRound (q : ℚ) : Int := Int.floor (q + 1/2)

/-- Magnitude rounding used by Number.prototype.toFixed: for a nonnegative
argument, the integer n minimising the distance of n / 10^d to q, ties to
the larger n. -/
def toFixedInt (d : Nat) (q : ℚ) : Int := Int.floor (q * (10 : ℚ) ^ d + 1/2)

def padLeftZeros (s : String) (len : Nat) : String :=
  String.mk (List.replicate (len - s.length) '0') ++ s

/-- Number.prototype.toFixed(d): ECMA-262 splits off the sign, rounds the
magnitude (ties up) and renders with exactly d decimals. -/
def renderFixed (d : Nat) (q : ℚ) : String :=
  let sign := if q < 0 then "-" else ""
  let n := (toFixedInt d (if q < 0 then -q else q)).toNat
  if d = 0 then sign ++ toString n
  else
    let p := 10 ^ d
    sign ++ toString (n / p) ++ "." ++ padLeftZeros (toString (n % p)) d

/-- The rational value denoted by the toFixed(d) rendering (what JS
parseFloat recovers from it). -/
def toFixedVal (d : Nat) (q : ℚ) : ℚ :=
  (if q < 0 then -1 else 1) * ((toFixedInt d (if q < 0 then -q else q) : ℚ) / (10 : ℚ) ^ d)

/-- JS `x || dflt` on an optional string: null/undefined and "" are falsy. -/
def jsOrStr : Option String → String → String
  | some s, d => if s = "" then d else s
  | none, d => d

/-! ## api/market-cache (market snapshot endpoint)

Source: `src/api/market-cache.js`, first handler.  `fetchPrices` and
`fetchGlobalData` are awaited with Promise.all, so the combined upstream
result either yields both normalized objects or the whole fetch throws;
it is modelled as an `Option` input to the handler. -/

structure PriceInfo where
  price : ℚ
  change24h : ℚ
  marketCap : ℚ
deriving DecidableEq, Repr

structure PriceData where
  btc : PriceInfo
  eth : PriceInfo
deriving DecidableEq, Repr

structure GlobalInfo where
  totalMarketCap : ℚ
  totalVolume24h : ℚ
  marketCapChange24h : ℚ
  btcDominance : ℚ
  ethDominance : ℚ
  activeCryptos : ℚ
deriving DecidableEq, Repr

/-- The `freshData` object built on a successful fetch (also the shape the
cache slot stores). -/
structure MarketData where
  btc : PriceInfo
  eth : PriceInfo
  market : GlobalInfo
  updated : String
  updatedTimestamp : Int
deriving DecidableEq, Repr

/-- Module-level `let cache = { data: null, timestamp: 0 }`. -/
structure MarketCacheState where
  data : Option MarketData
  timestamp : Int
deriving DecidableEq, Repr

def initialMarketCache : MarketCacheState := { data := none, timestamp := 0 }

/-- CACHE_DURATION: 5 * 60 * 1000. -/
def MARKET_CACHE_DURATION : Int := 5 * 60 * 1000

/-- Emitted JSON of the market snapshot handler.  `Option` fields model JSON
keys present only on some response paths; the handler never writes a
`source` key, which the always-`none` field records. -/
structure MarketResponse where
  status : Nat
  body : MarketData
  cached : Option Bool
  cacheAge : Option Int
  stale : Option Bool
  error : Option String
  fallback : Option Bool := none
  source : Option String := none
deriving DecidableEq, Repr

/-- getFallbackData (the `cached:false` / `fallback:true` keys it also
carries are set by the handler response record). -/
def getFallbackData (nowIso : String) (now : Int) : MarketData :=
  { btc := { price := 97500, change24h := 0, marketCap := 1920000000000 }
    eth := { price := 3650, change24h := 0, marketCap := 440000000000 }
    market :=
      { totalMarketCap := 3500000000000
        totalVolume24h := 150000000000
        marketCapChange24h := 0
        btcDominance := 54.8
        ethDominance := 12.5
        activeCryptos := 10000 }
    updated := nowIso
    updatedTimestamp := now }

/-- The fetch-or-fallback tail of the handler (everything after the
fresh-cache early return). -/
def marketFetchPath (cache : MarketCacheState) (now : Int) (nowIso : String)
    (upstream : Option (PriceData × GlobalInfo)) :
    MarketResponse × MarketCacheState × Bool :=
  match upstream with
  | some (priceData, globalData) =>
    let freshData : MarketData :=
      { btc := priceData.btc, eth := priceData.eth, market := globalData
        updated := nowIso, updatedTimestamp := now }
    ({ status := 200, body := freshData, cached := some false,
       cacheAge := none, stale := none, error := none },
     { data := some freshData, timestamp := now }, true)
  | none =>
    match cache.data with
    | some d =>
      ({ status := 200, body := d, cached := some true,
         cacheAge := some (jsRound (((now - cache.timestamp : Int) : ℚ) / 1000)),
         stale := some true, error := some "Using stale data due to API error" },
       cache, true)
    | none =>
      ({ status := 200, body := getFallbackData nowIso now, cached := some false,
         cacheAge := none, stale := none, error := none, fallback := some true },
       cache, true)

/-- The market snapshot handler.  Returns (response, new cache slot,
whether the upstream fetch call was reached). -/
def marketCacheHandler (cache : MarketCacheState) (now : Int) (nowIso : String)
    (upstream : Option (PriceData × GlobalInfo)) :
    MarketResponse × MarketCacheState × Bool :=
  match cache.data with
  | some d =>
    if now - cache.timestamp < MARKET_CACHE_DURATION then
      ({ status := 200, body := d, cached := some true,
         cacheAge := some (jsRound (((now - cache.timestamp : Int) : ℚ) / 1000)),
         stale := none, error := none }, cache, false)
    else marketFetchPath cache now nowIso upstream
  | none => marketFetchPath cache now nowIso upstream

/-! ## Top 100 coins endpoint

Source: `src/unnamed/part_003` (top-100 coins cache).  The handler input is
the resolved value of `fetchTop100Coins()` (the already-transformed coin
list), `none` when the fetch rejected or the response was not ok. -/

/-- One entry of the standardized coin list built by `fetchTop100Coins`. -/
structure Coin where
  id : String
  symbol : String
  name : String
  image : String
  price : ℚ
  marketCap : ℚ
  rank : ℚ
  volume24h : ℚ
  change24h : ℚ
  change7d : ℚ
  change30d : ℚ
  ath : ℚ
  athDate : String
  athChangePercent : ℚ
deriving DecidableEq, Repr

/-- The `freshData` object of the top-100 handler. -/
structure CoinsData where
  coins : List Coin
  count : Nat
  updated : String
  updatedTimestamp : Int
deriving DecidableEq, Repr

structure CoinsCacheState where
  data : Option CoinsData
  timestamp : Int
deriving DecidableEq, Repr

def initialCoinsCache : CoinsCacheState := { data := none, timestamp := 0 }

/-- CACHE_DURATION: 15 * 60 * 1000. -/
def COINS_CACHE_DURATION : Int := 15 * 60 * 1000

/-- Body of a top-100 response: either a coins payload, or the
`{ error: 'Failed to fetch coin data', coins: [], count: 0 }` object of the
no-cache error path. -/
inductive CoinsBody where
  | payload : CoinsData → CoinsBody
  | errorEmpty : CoinsBody
deriving DecidableEq, Repr

structure CoinsResponse where
  status : Nat
  body : CoinsBody
  cached : Option Bool
  cacheAge : Option Int
  stale : Option Bool
  error : Option String
deriving DecidableEq, Repr

def coinsFetchPath (cache : CoinsCacheState) (now : Int) (nowIso : String)
    (upstream : Option (List Coin)) : CoinsResponse × CoinsCacheState × Bool :=
  match upstream with
  | some coins =>
    let freshData : CoinsData :=
      { coins := coins, count := coins.length, updated := nowIso, updatedTimestamp := now }
    ({ status := 200, body := .payload freshData, cached := some false,
       cacheAge := none, stale := none, error := none },
     { data := some freshData, timestamp := now }, true)
  | none =>
    match cache.data with
    | some d =>
      ({ status := 200, body := .payload d, cached := some true,
         cacheAge := some (jsRound (((now - cache.timestamp : Int) : ℚ) / 1000)),
         stale := some true, error := some "Using stale data due to API error" },
       cache, true)
    | none =>
      ({ status := 500, body := .errorEmpty, cached := none,
         cacheAge := none, stale := none, error := some "Failed to fetch coin data" },
       cache, true)

/-- The top-100 coins handler. -/
def coinsCacheHandler (cache : CoinsCacheState) (now : Int) (nowIso : String)
    (upstream : Option (List Coin)) : CoinsResponse × CoinsCacheState × Bool :=
  match cache.data with
  | some d =>
    if now - cache.timestamp < COINS_CACHE_DURATION then
      ({ status := 200, body := .payload d, cached := some true,
         cacheAge := some (jsRound (((now - cache.timestamp : Int) : ℚ) / 1000)),
         stale := none, error := none }, cache, false)
    else coinsFetchPath cache now nowIso upstream
  | none => coinsFetchPath cache now nowIso upstream

/-! ## Personal data endpoint

Source: `src/api/market-cache.js`, third handler (personal data cache).
The cache is keyed by the calendar date string in addition to the
timestamp.  The coins/market payload content is irrelevant to the claims
about this endpoint, so the combined result of `fetchCoinsWithHistory` and
`fetchMarketHistory` is a type parameter. -/

/-- The `freshData` wrapper stored in the personal cache slot. -/
structure PersonalData (α : Type) where
  payload : α
  updated : String
  updatedTimestamp : Int
  dataDate : String
deriving DecidableEq, Repr

/-- Module-level cache slot of the personal handler:
`{ data: null, timestamp: 0, date: null }`. -/
structure PersonalCacheState (α : Type) where
  data : Option (PersonalData α)
  timestamp : Int
  date : Option String
deriving DecidableEq, Repr

/-- Body of a personal response: a data payload, or the 500 body
`{ error: 'Failed to fetch personal data', coins: [], market: {} }`. -/
inductive PersonalBody (α : Type) where
  | payload : PersonalData α → PersonalBody α
  | errorEmpty : PersonalBody α
deriving DecidableEq, Repr

structure PersonalResponse (α : Type) where
  status : Nat
  body : PersonalBody α
  cached : Option Bool
  cacheAge : Option Int
  stale : Option Bool
  error : Option String
deriving DecidableEq, Repr

def personalFetchPath {α : Type} (cache : PersonalCacheState α) (now : Int)
    (today nowIso : String) (upstream : Option α) :
    PersonalResponse α × PersonalCacheState α × Bool :=
  match upstream with
  | some payload =>
    let freshData : PersonalData α :=
      { payload := payload, updated := nowIso, updatedTimestamp := now, dataDate := today }
    ({ status := 200, body := .payload freshData, cached := some false,
       cacheAge := none, stale := none, error := none },
     { data := some freshData, timestamp := now, date := some today }, true)
  | none =>
    match cache.data with
    | some d =>
      ({ status := 200, body := .payload d, cached := some true,
         cacheAge := some (jsRound (((now - cache.timestamp : Int) : ℚ) / 1000)),
         stale := some true, error := some "Using stale data due to API error" },
       cache, true)
    | none =>
      ({ status := 500, body := .errorEmpty, cached := none,
         cacheAge := none, stale := none, error := some "Failed to fetch personal data" },
       cache, true)

/-- The personal data handler: serves the cache only when a payload exists
and was stored under today's date key. -/
def personalCacheHandler {α : Type} (cache : PersonalCacheState α) (now : Int)
    (today nowIso : String) (upstream : Option α) :
    PersonalResponse α × PersonalCacheState α × Bool :=
  match cache.data with
  | some d =>
    if cache.date = some today then
      ({ status := 200, body := .payload d, cached := some true,
         cacheAge := some (jsRound (((now - cache.timestamp : Int) : ℚ) / 1000)),
         stale := none, error := none }, cache, false)
    else personalFetchPath cache now today nowIso upstream
  | none => personalFetchPath cache now today nowIso upstream

/-! ## Daily rotating metric endpoint ("The Number")

Source: `src/unnamed/part_004`.  The handler keeps no module-level cache
slot; every invocation switches on the UTC day of week and runs one
fetcher.  Each fetcher catches its own failures and returns a hard-coded
fallback, so the handler-level catch is not reachable from the modelled
inputs.  Upstream results are `Option` inputs (`none` = rejected fetch or
non-ok status); an extra `Option` layer models a missing BTC entry where
the code checks for one. -/

/-- One entry of the alternative.me response; `value` and `timestamp` are
decimal strings upstream, modelled after parseInt. -/
structure FngEnt where
  value : Int
  timestamp : Int
  classification : String
deriving DecidableEq, Repr

/-- A `{ value, date }` history point; the ISO rendering of the date is
kept as its millisecond value. -/
structure HistPoint where
  value : Int
  dateMs : Int
deriving DecidableEq, Repr

/-- Weekly sampling of the Fear & Greed history: indices 0, 7, 14, …,
at most 26 entries, then reversed. -/
def fgHistory (data : List FngEnt) : List HistPoint :=
  ((((List.range 26).filterMap fun k => data.get? (7 * k)).map
    fun e => { value := e.value, dateMs := e.timestamp * 1000 : HistPoint })).reverse

/-- The normalized metric object returned by every fetcher. -/
structure MetricData where
  metric : String
  label : String
  value : String
  numericValue : ℚ
  unit : String
  subtitle : Option String
  context : String
  interpretation : String
  change : Option String
  history : List HistPoint
  historyLabel : Option String
  source : String
deriving DecidableEq, Repr

/-- Interpretation chain of getFearAndGreed: (interpretation, context). -/
def fearGreedInterpretation (current : Int) : String × String :=
  if current ≤ 20 then
    ("bearish", "Extreme fear often precedes reversals - historically a buying opportunity")
  else if current ≤ 40 then
    ("cautious", "Fear dominates - crowd is nervous, but not panicking")
  else if current ≤ 60 then
    ("neutral", "Neither fear nor greed dominates - market in equilibrium")
  else if current ≤ 80 then
    ("optimistic", "Greed is building - momentum favors bulls, but watch for overextension")
  else
    ("bullish", "Extreme greed - historically precedes corrections. Caution warranted")

def getFallbackFearGreed : MetricData :=
  { metric := "fear_greed", label := "FEAR & GREED", value := "65", numericValue := 65,
    unit := "/100", subtitle := some "Greed",
    context := "Greed is building - momentum favors bulls, but watch for overextension",
    interpretation := "optimistic", change := none, history := [],
    historyLabel := some "6 months", source := "fallback" }

/-- Monday fetcher.  An empty data array throws inside the try, landing in
the same fallback as a failed fetch. -/
def getFearAndGreed (up : Option (List FngEnt)) : MetricData :=
  match up with
  | none => getFallbackFearGreed
  | some [] => getFallbackFearGreed
  | some (first :: rest) =>
    let data := first :: rest
    let current := first.value
    let thirtyDaysAgo := match data.get? 29 with | some e => e.value | none => current
    let change := current - thirtyDaysAgo
    let ic := fearGreedInterpretation current
    { metric := "fear_greed", label := "FEAR & GREED",
      value := toString current, numericValue := (current : ℚ), unit := "/100",
      subtitle := some first.classification, context := ic.2, interpretation := ic.1,
      change := if change ≠ 0 then
          some ((if change > 0 then "+" ++ toString change else toString change) ++ " vs 30d ago")
        else none,
      history := fgHistory data, historyLabel := some "6 months", source := "alternative.me" }

/-- The `market_cap_percentage` fields of the CoinGecko global response;
`Option` models the `?. … || 0` defaulting applied by the fetcher. -/
structure GlobalPct where
  btc : Option ℚ
  eth : Option ℚ
deriving DecidableEq, Repr

def btcDominanceFallback : MetricData :=
  { metric := "btc_dominance", label := "BTC DOMINANCE", value := "52.0", numericValue := 52,
    unit := "%", subtitle := some "ETH: 18.5%",
    context := "Healthy Bitcoin leadership - alts following, not leading",
    interpretation := "balanced", change := none, history := [],
    historyLabel := some "6 months", source := "fallback" }

/-- Interpretation chain of getBTCDominance. -/
def btcDominanceInterpretation (dominance : ℚ) : String × String :=
  if dominance ≥ 55 then
    ("risk-off", "Capital favoring Bitcoin over alts - flight to quality, risk-off positioning")
  else if dominance ≥ 50 then
    ("balanced", "Healthy Bitcoin leadership - alts following, not leading")
  else if dominance ≥ 45 then
    ("risk-on", "Capital rotating to alts - risk appetite increasing")
  else
    ("alt-season", "Alt season signals - historically unsustainable, late-cycle behavior")

/-- Tuesday fetcher. -/
def getBTCDominance (up : Option GlobalPct) : MetricData :=
  match up with
  | none => btcDominanceFallback
  | some g =>
    let dominance := g.btc.getD 0
    let ethDominance := g.eth.getD 0
    let ic := btcDominanceInterpretation dominance
    { metric := "btc_dominance", label := "BTC DOMINANCE",
      value := renderFixed 1 dominance, numericValue := dominance, unit := "%",
      subtitle := some ("ETH: " ++ renderFixed 1 ethDominance ++ "%"),
      context := ic.2, interpretation := ic.1, change := none, history := [],
      historyLabel := some "6 months", source := "coingecko" }

/-- The BTC entry of the CoinGlass funding response.  Entries of
uMarginList are the per-exchange `rate` values (`ex.rate || 0`); an absent
uMarginList array (which would propagate NaN in JS) is not modelled. -/
structure FundingBtc where
  uMarginList : List (Option ℚ)
deriving DecidableEq, Repr

/-- Interpretation chain of getFundingRates over the average 8-hour rate. -/
def fundingInterpretation (avgRate : ℚ) : String × String :=
  if avgRate > 3/10000 then
    ("crowded-long", "Longs paying heavily - crowded trade. Squeeze risk if price drops")
  else if avgRate > 1/10000 then
    ("bullish-bias", "Modest long bias - healthy bullish positioning")
  else if avgRate > -(1/10000) then
    ("neutral", "Funding neutral - no strong directional bias in derivatives")
  else if avgRate > -(3/10000) then
    ("bearish-bias", "Shorts paying - contrarian signal, potential squeeze setup")
  else
    ("crowded-short", "Extreme negative funding - shorts crowded, squeeze likely")

def getFallbackFundingRates : MetricData :=
  { metric := "funding_rates", label := "FUNDING RATE", value := "0.0100", numericValue := 0.01,
    unit := "%", subtitle := some "≈ 11% APR",
    context := "Modest long bias - healthy bullish positioning",
    interpretation := "bullish-bias", change := none, history := [],
    historyLabel := some "30 days", source := "fallback" }

/-- Wednesday fetcher.  The outer `Option` is the fetch result, the inner
one the lookup of the BTC symbol in it.  Note the `annualized` subtitle
value is `avgRate * 3 * 365` with no percent conversion. -/
def getFundingRates (up : Option (Option FundingBtc)) : MetricData :=
  match up with
  | none => getFallbackFundingRates
  | some none => getFallbackFundingRates
  | some (some btcData) =>
    let rates := btcData.uMarginList
    let avgRate : ℚ := (rates.map (fun r => r.getD 0)).sum /
      (((if rates.length = 0 then 1 else rates.length) : Nat) : ℚ)
    let annualized := avgRate * 3 * 365
    let ic := fundingInterpretation avgRate
    { metric := "funding_rates", label := "FUNDING RATE",
      value := renderFixed 4 (avgRate * 100),
      numericValue := avgRate * 100, unit := "%",
      subtitle := some ("≈ " ++ renderFixed 0 annualized ++ "% APR"),
      context := ic.2, interpretation := ic.1, change := none, history := [],
      historyLabel := some "30 days", source := "coinglass" }

/-- The BTC entry of the CoinGlass open-interest response. -/
structure OiBtc where
  openInterest : Option ℚ
  h24Change : Option ℚ
deriving DecidableEq, Repr

def getFallbackOpenInterest : MetricData :=
  { metric := "open_interest", label := "OPEN INTEREST", value := "18.5", numericValue := 18.5,
    unit := "B", subtitle := some "+2.3% 24h",
    context := "Healthy leverage levels - normal market structure",
    interpretation := "normal", change := none, history := [],
    historyLabel := some "6 months", source := "fallback" }

/-- Interpretation chain of getOpenInterest over the total OI in USD. -/
def oiInterpretation (totalOI : ℚ) : String × String :=
  if totalOI > 20 * 10 ^ 9 then
    ("elevated-risk", "Leverage extended - high OI means violent moves possible on liquidations")
  else if totalOI > 15 * 10 ^ 9 then
    ("normal", "Healthy leverage levels - normal market structure")
  else
    ("low-leverage", "Low leverage - market less prone to cascading liquidations")

/-- Thursday fetcher. -/
def getOpenInterest (up : Option (Option OiBtc)) : MetricData :=
  match up with
  | none => getFallbackOpenInterest
  | some none => getFallbackOpenInterest
  | some (some btcData) =>
    let totalOI := btcData.openInterest.getD 0
    let change24h := btcData.h24Change.getD 0
    let ic := oiInterpretation totalOI
    { metric := "open_interest", label := "OPEN INTEREST",
      value := renderFixed 1 (totalOI / 10 ^ 9),
      numericValue := toFixedVal 1 (totalOI / 10 ^ 9), unit := "B",
      subtitle := some ((if change24h ≥ 0 then "+" else "") ++ renderFixed 1 change24h ++ "% 24h"),
      context := ic.2, interpretation := ic.1, change := none, history := [],
      historyLabel := some "6 months", source := "coinglass" }

/-- One coin of the CoinGecko stablecoin category response. -/
structure StableCoin where
  symbol : String
  market_cap : Option ℚ
  market_cap_change_percentage_24h : Option ℚ
deriving DecidableEq, Repr

def stablecoinFallback : MetricData :=
  { metric := "stablecoin_supply", label := "STABLECOIN SUPPLY", value := "150",
    numericValue := 150, unit := "B", subtitle := some "USDT: $83B · USDC: $42B",
    context := "Dry powder stable - capital waiting on sidelines for opportunity",
    interpretation := "neutral", change := none, history := [],
    historyLabel := some "12 months", source := "fallback" }

/-- Interpretation chain of getStablecoinSupply over the average 24h
market-cap change. -/
def stablecoinInterpretation (avgChange : ℚ) : String × String :=
  if avgChange > 1/2 then
    ("accumulating", "Fresh capital entering - stablecoin minting signals buying preparation")
  else if avgChange > -(1/2) then
    ("neutral", "Dry powder stable - capital waiting on sidelines for opportunity")
  else
    ("deploying", "Stablecoins converting to crypto - capital being deployed")

/-- The `USDT: $…B` cap rendering: missing coin gives "?", a coin whose
market_cap is absent divides undefined by 1e9, i.e. NaN, which toFixed
renders as "NaN". -/
def stableCapDisplay (c : Option StableCoin) : String :=
  match c with
  | some u =>
    match u.market_cap with
    | some mc => renderFixed 0 (mc / 10 ^ 9)
    | none => "NaN"
  | none => "?"

/-- Friday/weekend fetcher.  On an empty coin list the JS average is
0 / 0 = NaN: every NaN comparison is false, selecting the final
interpretation branch, `NaN !== 0` keeps the change string, and
`NaN.toFixed(2)` renders as "NaN". -/
def getStablecoinSupply (up : Option (List StableCoin)) : MetricData :=
  match up with
  | none => stablecoinFallback
  | some coins =>
    let totalSupply : ℚ := (coins.map (fun c => c.market_cap.getD 0)).sum
    let displayValue := renderFixed 0 (totalSupply / 10 ^ 9)
    let usdtCap := stableCapDisplay (coins.find? (fun c => c.symbol = "usdt"))
    let usdcCap := stableCapDisplay (coins.find? (fun c => c.symbol = "usdc"))
    let subtitle := some ("USDT: $" ++ usdtCap ++ "B · USDC: $" ++ usdcCap ++ "B")
    if coins.isEmpty then
      { metric := "stablecoin_supply", label := "STABLECOIN SUPPLY", value := displayValue,
        numericValue := toFixedVal 0 (totalSupply / 10 ^ 9), unit := "B",
        subtitle := subtitle,
        context := "Stablecoins converting to crypto - capital being deployed",
        interpretation := "deploying", change := some "NaN% 24h", history := [],
        historyLabel := some "12 months", source := "coingecko" }
    else
      let avgChange : ℚ :=
        (coins.map (fun c => c.market_cap_change_percentage_24h.getD 0)).sum /
          ((coins.length : Nat) : ℚ)
      let ic := stablecoinInterpretation avgChange
      { metric := "stablecoin_supply", label := "STABLECOIN SUPPLY", value := displayValue,
        numericValue := toFixedVal 0 (totalSupply / 10 ^ 9), unit := "B",
        subtitle := subtitle, context := ic.2, interpretation := ic.1,
        change := if avgChange ≠ 0 then
            some ((if avgChange ≥ 0 then "+" else "") ++ renderFixed 2 avgChange ++ "% 24h")
          else none,
        history := [], historyLabel := some "12 months", source := "coingecko" }

/-- The bundle of upstream results the five fetchers may consume. -/
structure MetricUpstreams where
  fng : Option (List FngEnt)
  global : Option GlobalPct
  funding : Option (Option FundingBtc)
  openInt : Option (Option OiBtc)
  stables : Option (List StableCoin)
deriving DecidableEq, Repr

/-- The upstream bundle in which every fetch fails. -/
def failedMetricUpstreams : MetricUpstreams :=
  { fng := none, global := none, funding := none, openInt := none, stables := none }

/-- The day-of-week switch of the handler: cases 1-4 are Monday-Thursday;
5, 6, 0 and the default case share the stablecoin fetcher. -/
def selectDailyMetric (dayOfWeek : Nat) (u : MetricUpstreams) : MetricData :=
  match dayOfWeek with
  | 1 => getFearAndGreed u.fng
  | 2 => getBTCDominance u.global
  | 3 => getFundingRates u.funding
  | 4 => getOpenInterest u.openInt
  | _ => getStablecoinSupply u.stables

/-- Emitted JSON of the daily metric handler.  There is no cache slot in
this endpoint: the always-`none` `cached` field records that no `cached`
key is ever written, and `fetched` records that the selected fetcher runs
on every invocation. -/
structure MetricResponse where
  status : Nat
  body : MetricData
  dayOfWeek : Nat
  updated : String
  cached : Option Bool
  fetched : Bool
deriving DecidableEq, Repr

/-- The daily metric handler. -/
def dailyMetricHandler (dayOfWeek : Nat) (u : MetricUpstreams) (nowIso : String) :
    MetricResponse :=
  { status := 200, body := selectDailyMetric dayOfWeek u, dayOfWeek := dayOfWeek,
    updated := nowIso, cached := none, fetched := true }

/-! ## Market mood endpoint

Source: `src/api/market-cache.js`, second handler (9-box mood).  The two
fetches throw on a non-ok status, landing in the catch branch, which still
responds with status 200 and a fixed fallback body.  The mood-history file
read is an `Option` input (`none` = missing or unparsable file). -/

structure MoodPoint where
  breadth : ℚ
  mv : ℚ
deriving DecidableEq, Repr

structure MoodHistoryData where
  hourly : List MoodPoint
  daily : List MoodPoint
deriving DecidableEq, Repr

/-- The two `usd` leaves the handler reads from the global response
(`?. … || 0` defaulting is applied at use sites). -/
structure MoodGlobal where
  total_market_cap_usd : Option ℚ
  total_volume_usd : Option ℚ
deriving DecidableEq, Repr

structure MoodCoin where
  price_change_percentage_24h : Option ℚ
deriving DecidableEq, Repr

/-- The guarded market-cap-to-volume division of the mood handler:
`totalVolume24h > 0 ? totalMarketCap / totalVolume24h : 20`. -/
def mvRatio24hOf (totalMarketCap totalVolume24h : ℚ) : ℚ :=
  if totalVolume24h > 0 then totalMarketCap / totalVolume24h else 20

/-- The rounding `Math.round(x * 10) / 10`. -/
def jsRound1 (q : ℚ) : ℚ := (jsRound (q * 10) : ℚ) / 10

structure MoodRange where
  low : ℚ
  high : ℚ
deriving DecidableEq, Repr

structure MoodRaw where
  totalMarketCap : ℚ
  totalVolume24h : ℚ
  greenCoins : Nat
  totalCoins : Nat
deriving DecidableEq, Repr

structure MoodOk where
  lastUpdated : String
  breadth : ℚ
  breadthAvg24h : ℚ
  mvRatio24h : ℚ
  mvRatio7d : ℚ
  trail : List MoodPoint
  trail7d : List MoodPoint
  mvRange : MoodRange
  dataPointsHourly : Nat
  dataPointsDaily : Nat
  raw : MoodRaw
deriving DecidableEq, Repr

/-- Body of a mood response; the catch branch emits `success:false`, the
thrown message, and fixed constant fields. -/
inductive MoodBody where
  | ok : MoodOk → MoodBody
  | fallback : String → MoodBody
deriving DecidableEq, Repr

structure MoodResponse where
  status : Nat
  body : MoodBody
deriving DecidableEq, Repr

/-- The market mood handler.  The JS breadth of an empty coin list is
0 / 0 = NaN; rational division renders that corner as 0 instead, and no
claim depends on it. -/
def marketMoodHandler (globalData : Option MoodGlobal) (coins : Option (List MoodCoin))
    (history : Option MoodHistoryData) (nowIso : String) : MoodResponse :=
  match globalData with
  | none => ⟨200, .fallback "Failed to fetch global data"⟩
  | some g =>
    match coins with
    | none => ⟨200, .fallback "Failed to fetch coins data"⟩
    | some cs =>
      let greenCoins := (cs.filter fun c =>
        match c.price_change_percentage_24h with
        | some v => decide (v > 0)
        | none => false).length
      let breadth : ℚ := ((greenCoins : ℚ) / (cs.length : ℚ)) * 100
      let totalMarketCap := g.total_market_cap_usd.getD 0
      let totalVolume24h := g.total_volume_usd.getD 0
      let mv := mvRatio24hOf totalMarketCap totalVolume24h
      let hist := history.getD { hourly := [], daily := [] }
      let trail24h0 : List MoodPoint :=
        if hist.hourly.length > 0 then hist.hourly.map (fun p => ⟨p.breadth, p.mv⟩)
        else [⟨breadth, mv⟩]
      let trail24h := match trail24h0.getLast? with
        | none => trail24h0 ++ [⟨breadth, mv⟩]
        | some lastPoint =>
          if |lastPoint.breadth - breadth| > 1/2 ∨ |lastPoint.mv - mv| > 1/2 then
            trail24h0 ++ [⟨breadth, mv⟩]
          else trail24h0
      let trail7d : List MoodPoint :=
        if hist.daily.length > 0 then hist.daily.map (fun p => ⟨p.breadth, p.mv⟩) else []
      let mvRatio7d := if trail7d.length > 0 then
          (trail7d.map MoodPoint.mv).sum / ((trail7d.length : Nat) : ℚ)
        else mv
      let breadthAvg24h := (trail24h.map MoodPoint.breadth).sum / ((trail24h.length : Nat) : ℚ)
      ⟨200, .ok
        { lastUpdated := nowIso
          breadth := jsRound1 breadth
          breadthAvg24h := jsRound1 breadthAvg24h
          mvRatio24h := jsRound1 mv
          mvRatio7d := jsRound1 mvRatio7d
          trail := trail24h
          trail7d := trail7d
          mvRange := ⟨10, 45⟩
          dataPointsHourly := trail24h.length
          dataPointsDaily := trail7d.length
          raw := ⟨totalMarketCap, totalVolume24h, greenCoins, cs.length⟩ }⟩

/-! ## ETF flows endpoint

Source: `src/unnamed/part_000`.  Every branch, including missing API key,
non-ok upstream status, and transform failure, responds with status 200. -/

/-- JS `x || y` for an optional number: null/undefined and 0 are falsy. -/
def jsOrNum (a : Option ℚ) (b : ℚ) : ℚ :=
  match a with
  | some v => if v = 0 then b else v
  | none => b

structure FlowDay where
  netInflow : Option ℚ
  net_inflow : Option ℚ
  amount : Option ℚ
deriving DecidableEq, Repr

structure EtfRaw where
  dailyNetInflow : Option ℚ
  daily_net_inflow : Option ℚ
  historicalFlows : Option (List FlowDay)
  flows_history : Option (List FlowDay)
deriving DecidableEq, Repr

structure WeekDay where
  day : String
  amount : ℚ
deriving DecidableEq, Repr

def dayNames : List String := ["Mon", "Tue", "Wed", "Thu", "Fri"]

/-- The last five entries, `weekData.slice(-5)`, mapped to day-name/amount pairs. -/
def mkWeek (weekData : List FlowDay) : List WeekDay :=
  let sliced := weekData.drop (weekData.length - 5)
  (sliced.zip dayNames).map fun p =>
    ⟨p.2, jsOrNum p.1.netInflow (jsOrNum p.1.net_inflow (jsOrNum p.1.amount 0))⟩

def countConsecutive (week : List WeekDay) (isInflow : Bool) : Nat :=
  (week.reverse.takeWhile fun d => decide (d.amount > 0) == isInflow).length

def generateInsight (yesterday : ℚ) (week : List WeekDay) : String :=
  let isInflow := yesterday > 0
  let consecutiveDays := countConsecutive week isInflow
  let weekTotal := (week.map WeekDay.amount).sum
  if consecutiveDays ≥ 3 then
    toString consecutiveDays ++ " consecutive days of net " ++
      (if isInflow then "inflows" else "outflows")
  else if |yesterday| > 400 then
    "Significant " ++ (if isInflow then "institutional buying" else "redemptions") ++ " yesterday"
  else if weekTotal > 500 then
    "Strong weekly accumulation: +$" ++ toString (jsRound weekTotal) ++ "M net"
  else if weekTotal < -500 then
    "Weekly outflows signal caution: -$" ++ toString (jsRound weekTotal).natAbs ++ "M"
  else if isInflow then "Steady institutional interest continues"
  else "Mixed signals from institutional flows"

structure EtfYesterday where
  amount : Int
  date : String
deriving DecidableEq, Repr

structure EtfBody where
  yesterday : EtfYesterday
  week : List WeekDay
  insight : String
  source : String
  updated : String
deriving DecidableEq, Repr

def getMockData (nowIso : String) : EtfBody :=
  { yesterday := ⟨438, "Yesterday"⟩
    week := [⟨"Mon", 215⟩, ⟨"Tue", 380⟩, ⟨"Wed", -120⟩, ⟨"Thu", 290⟩, ⟨"Fri", 438⟩]
    insight := "Third consecutive day of net inflows"
    source := "mock", updated := nowIso }

def transformSoSoValueData (data : EtfRaw) (nowIso : String) : EtfBody :=
  let yesterday := jsOrNum data.dailyNetInflow (jsOrNum data.daily_net_inflow 0)
  let weekData := match data.historicalFlows with
    | some l => l
    | none => data.flows_history.getD []
  let week := mkWeek weekData
  { yesterday := ⟨jsRound (yesterday / 1000000), "Yesterday"⟩
    week := if week.length ≠ 0 then week else (getMockData nowIso).week
    insight := generateInsight yesterday week
    source := "sosovalue", updated := nowIso }

structure EtfResponse where
  status : Nat
  body : EtfBody
deriving DecidableEq, Repr

/-- The ETF flows handler; `!apiKey` also catches an empty key string. -/
def etfFlowsHandler (apiKey : Option String) (upstream : Option EtfRaw) (nowIso : String) :
    EtfResponse :=
  match apiKey with
  | none => ⟨200, getMockData nowIso⟩
  | some k =>
    if k = "" then ⟨200, getMockData nowIso⟩
    else
      match upstream with
      | none => ⟨200, getMockData nowIso⟩
      | some data => ⟨200, transformSoSoValueData data nowIso⟩

/-! ## Podcast feed endpoint

Source: `src/unnamed/part_005`.  The regex-based extraction helpers are
modelled character-for-character on `List Char`.  The three regexes used
(`<tag[^>]*>([^<]*)</tag>`, the CDATA variant, and
`<tag[^>]*attr=["']([^"']*)["']`) are deterministic except for the greedy
`[^>]*` before the attribute name, which is realised by longest-first
backtracking; all three carry the case-insensitive flag, while
`String.split` and `indexOf` are case-sensitive. -/

/-- Case-insensitive character comparison (the regex `i` flag). -/
def ciEq (a b : Char) : Bool := a.toLower == b.toLower

/-- Match a literal case-insensitively at the head; return the rest. -/
def matchLitCI : List Char → List Char → Option (List Char)
  | [], s => some s
  | _, [] => none
  | l :: ls, c :: cs => if ciEq l c then matchLitCI ls cs else none

/-- Exact literal match at the head (String.split / indexOf are
case-sensitive). -/
def matchLit : List Char → List Char → Option (List Char)
  | [], s => some s
  | _, [] => none
  | l :: ls, c :: cs => if l == c then matchLit ls cs else none

/-- The text before the first occurrence of `lit` and the text after it. -/
def breakOnLit (lit : List Char) : List Char → Option (List Char × List Char)
  | [] =>
    match matchLit lit [] with
    | some rest => some ([], rest)
    | none => none
  | c :: cs =>
    match matchLit lit (c :: cs) with
    | some rest => some ([], rest)
    | none =>
      match breakOnLit lit cs with
      | some p => some (c :: p.1, p.2)
      | none => none

def splitOnLitAux : Nat → List Char → List Char → List (List Char)
  | 0, _, s => [s]
  | fuel + 1, lit, s =>
    match breakOnLit lit s with
    | some (pre, post) => pre :: splitOnLitAux fuel lit post
    | none => [s]

/-- JS String.split(sep). -/
def splitOnLit (lit s : List Char) : List (List Char) := splitOnLitAux s.length lit s

/-- Leftmost-match scan: try the matcher at every start position. -/
def scanFirst {α : Type} (f : List Char → Option α) : List Char → Option α
  | [] => f []
  | c :: cs =>
    match f (c :: cs) with
    | some r => some r
    | none => scanFirst f cs

/-- The pattern `<tag[^>]*>([^<]*)</tag>` tried at one position. -/
def matchPlainTagAt (tag : List Char) (s : List Char) : Option (List Char) := do
  let s1 ← matchLitCI ('<' :: tag) s
  let s2 := (s1.span fun c => c != '>').2
  let s3 ← matchLitCI ['>'] s2
  let p := s3.span fun c => c != '<'
  let _ ← matchLitCI ('<' :: '/' :: (tag ++ ['>'])) p.2
  some p.1

/-- The CDATA variant `<tag[^>]*><!\[CDATA\[([^\]]*?)\]\]></tag>` tried at
one position. -/
def matchCdataTagAt (tag : List Char) (s : List Char) : Option (List Char) := do
  let s1 ← matchLitCI ('<' :: tag) s
  let s2 := (s1.span fun c => c != '>').2
  let s3 ← matchLitCI ('>' :: "<![CDATA[".data) s2
  let p := s3.span fun c => c != ']'
  let _ ← matchLitCI ("]]></".data ++ (tag ++ ['>'])) p.2
  some p.1

/-- The single-quote character, written by code point to keep the source
plain. -/
def singleQuote : Char := Char.ofNat 39

/-- The pattern `attr=["']([^"']*)["']` tried at one position; the closing
quote may be either quote character. -/
def matchAttrVal (attr : List Char) (s : List Char) : Option (List Char) := do
  let s1 ← matchLitCI (attr ++ ['=']) s
  match s1 with
  | [] => none
  | q :: s2 =>
    if q == '"' || q == singleQuote then
      let p := s2.span fun c => c != '"' && c != singleQuote
      match p.2 with
      | [] => none
      | _ :: _ => some p.1
    else none

/-- Greedy backtracking of `[^>]*` before the attribute: the run is the
maximal stretch of non-'>' characters after the tag head; offsets inside
it are tried longest-prefix-first. -/
def attrBacktrack (attr : List Char) : List Char → List Char → Option (List Char)
  | [], rest => matchAttrVal attr rest
  | c :: cs, rest =>
    match attrBacktrack attr cs rest with
    | some r => some r
    | none => matchAttrVal attr (c :: (cs ++ rest))

/-- The pattern `<tag[^>]*attr=["']([^"']*)["']` tried at one position. -/
def matchAttrTagAt (tag attr : List Char) (s : List Char) : Option (List Char) := do
  let s1 ← matchLitCI ('<' :: tag) s
  let p := s1.span fun c => c != '>'
  attrBacktrack attr p.1 p.2

/-- JS String.prototype.trim. -/
def jsTrim (s : List Char) : List Char :=
  ((s.dropWhile Char.isWhitespace).reverse.dropWhile Char.isWhitespace).reverse

def itemOpenLit : List Char := "<item>".data

/-- extractTag(xml, tagName, fromChannel): CDATA first, then a plain tag;
channel-level extraction searches only the text preceding the first
`<item>`. -/
def extractTag (xml : List Char) (tagName : List Char) (fromChannel : Bool) :
    Option (List Char) :=
  let searchContent := if fromChannel then
      match breakOnLit itemOpenLit xml with
      | some p => p.1
      | none => xml
    else xml
  match scanFirst (matchCdataTagAt tagName) searchContent with
  | some cap => some (jsTrim cap)
  | none =>
    match scanFirst (matchPlainTagAt tagName) searchContent with
    | some cap => some (jsTrim cap)
    | none => none

/-- extractAttribute(xml, tagName, attrName).  The function has no
fromChannel parameter: the extra `true` passed at the show-image call site
is silently discarded by JS, so the search always runs over the whole
document, episode items included. -/
def extractAttribute (xml : List Char) (tagName attrName : List Char) :
    Option (List Char) :=
  scanFirst (matchAttrTagAt tagName attrName) xml

/-- JS `x || dflt` on an optional text value: null and "" are falsy. -/
def jsOrL (a : Option (List Char)) (dflt : List Char) : List Char :=
  match a with
  | some s => if s = [] then dflt else s
  | none => dflt

/-- JS `x || null` on an optional text value. -/
def jsNullable (a : Option (List Char)) : Option (List Char) :=
  match a with
  | some s => if s = [] then none else some s
  | none => none

def replaceAllLitAux : Nat → List Char → List Char → List Char → List Char
  | 0, _, _, s => s
  | fuel + 1, lit, repl, s =>
    match breakOnLit lit s with
    | some (pre, post) => pre ++ repl ++ replaceAllLitAux fuel lit repl post
    | none => s

/-- Global literal replacement, leftmost and non-overlapping. -/
def replaceAllLit (lit repl s : List Char) : List Char := replaceAllLitAux s.length lit repl s

def stripTagsAux : Nat → List Char → List Char
  | 0, s => s
  | fuel + 1, s =>
    match s with
    | [] => []
    | c :: cs =>
      if c == '<' then
        match (cs.span fun x => x != '>').2 with
        | _ :: rest2 => stripTagsAux fuel rest2
        | [] => c :: stripTagsAux fuel cs
      else c :: stripTagsAux fuel cs

/-- Global removal of `<[^>]*>`: a '<' with no later '>' stays literal. -/
def stripTags (s : List Char) : List Char := stripTagsAux s.length s

def collapseWsAux : Bool → List Char → List Char
  | _, [] => []
  | prevWs, c :: cs =>
    if c.isWhitespace then
      if prevWs then collapseWsAux true cs else ' ' :: collapseWsAux true cs
    else c :: collapseWsAux false cs

/-- Global `\s+` → single space. -/
def collapseWs (s : List Char) : List Char := collapseWsAux false s

/-- cleanTitle: HTML entity decoding, then trim. -/
def cleanTitle (title : List Char) : List Char :=
  jsTrim (replaceAllLit "&apos;".data "'".data
    (replaceAllLit "&#39;".data "'".data
      (replaceAllLit "&quot;".data "\"".data
        (replaceAllLit "&gt;".data ">".data
          (replaceAllLit "&lt;".data "<".data
            (replaceAllLit "&amp;".data "&".data title))))))

/-- cleanDescription: tag removal, entity decoding, whitespace collapse,
trim. -/
def cleanDescription (desc : List Char) : List Char :=
  jsTrim (collapseWs
    (replaceAllLit "&nbsp;".data " ".data
      (replaceAllLit "&#39;".data "'".data
        (replaceAllLit "&quot;".data "\"".data
          (replaceAllLit "&gt;".data ">".data
            (replaceAllLit "&lt;".data "<".data
              (replaceAllLit "&amp;".data "&".data (stripTags desc))))))))

def digitsVal (t : List Char) : Int :=
  t.foldl (fun acc c => acc * 10 + ((c.toNat : Int) - 48)) 0

/-- JS Number() restricted to the shapes duration parts take: "" is 0,
digit strings parse, anything else is NaN (`none`). -/
def jsNumberOfField (s : List Char) : Option Int :=
  let t := jsTrim s
  if t.isEmpty then some 0
  else if t.all Char.isDigit then some (digitsVal t) else none

/-- parseDurationToSeconds; `none` models the NaN produced by non-numeric
HH:MM:SS parts. -/
def parseDurationToSeconds (duration : Option (List Char)) : Option Int :=
  match duration with
  | none => some 0
  | some d =>
    if d = [] then some 0
    else if d.all Char.isDigit then some (digitsVal d)
    else
      match (splitOnLit [':'] d).map jsNumberOfField with
      | [a, b, c] => do
        let x ← a
        let y ← b
        let z ← c
        some (x * 3600 + y * 60 + z)
      | [a, b] => do
        let x ← a
        let y ← b
        some (x * 60 + y)
      | _ => some 0

/-- formatDuration; the falsy guard catches both 0 and NaN.  Division and
remainder agree with JS on the nonnegative durations that occur. -/
def formatDuration (seconds : Option Int) : List Char :=
  match seconds with
  | none => []
  | some s =>
    if s = 0 then []
    else (toString (Int.fdiv s 60)).data ++ [':'] ++ (padLeftZeros (toString (Int.emod s 60)) 2).data

def isLowerAlnum (c : Char) : Bool := ('a' ≤ c && c ≤ 'z') || ('0' ≤ c && c ≤ '9')

def dashifyAux : Bool → List Char → List Char
  | _, [] => []
  | prevBad, c :: cs =>
    if isLowerAlnum c then c :: dashifyAux false cs
    else if prevBad then dashifyAux true cs
    else '-' :: dashifyAux true cs

/-- generateId: lower-case, collapse non-alphanumeric runs to '-', first
50 characters. -/
def generateId (title : List Char) : List Char :=
  (dashifyAux false (title.map Char.toLower)).take 50

structure Episode where
  id : List Char
  title : List Char
  pubDate : Option (List Char)
  pubDateISO : Option (List Char)
  durationRaw : Option (List Char)
  durationSec : Option Int
  durationFormatted : List Char
  audioUrl : List Char
  imageUrl : Option (List Char)
  summary : List Char
deriving DecidableEq, Repr

/-- The loop body's `indexOf` clipping:
`endIndex > -1 ? item.substring(0, endIndex) : item`. -/
def parseItemContent (item : List Char) : List Char :=
  match breakOnLit "</item>".data item with
  | some p => p.1
  | none => item

/-- One loop iteration of parseRSS.  `dateISO` models
`s => new Date(s).toISOString()`: `none` is the RangeError an invalid date
throws, which aborts the whole parse.  The conversion only runs inside the
`if (audioUrl)` push, on a truthy pubDate. -/
def parseItem (dateISO : List Char → Option (List Char)) (item : List Char) :
    Except Unit (Option Episode) :=
  let itemContent := parseItemContent item
  let title := jsOrL (extractTag itemContent "title".data false) "Untitled Episode".data
  let pubDate := extractTag itemContent "pubDate".data false
  let description := cleanDescription
    (jsOrL (extractTag itemContent "description".data false)
      (jsOrL (extractTag itemContent "itunes:summary".data false) []))
  let duration := extractTag itemContent "itunes:duration".data false
  let audioUrl := extractAttribute itemContent "enclosure".data "url".data
  let imageUrl := extractAttribute itemContent "itunes:image".data "href".data
  let guid := extractTag itemContent "guid".data false
  match audioUrl with
  | none => Except.ok none
  | some u =>
    if u = [] then Except.ok none
    else
      let mkEp (iso : Option (List Char)) : Episode :=
        { id := jsOrL guid (generateId title)
          title := cleanTitle title
          pubDate := jsNullable pubDate
          pubDateISO := iso
          durationRaw := duration
          durationSec := parseDurationToSeconds duration
          durationFormatted := formatDuration (parseDurationToSeconds duration)
          audioUrl := u
          imageUrl := jsNullable imageUrl
          summary := description.take 300 }
      match jsNullable pubDate with
      | some p =>
        match dateISO p with
        | none => Except.error ()
        | some iso => Except.ok (some (mkEp (some iso)))
      | none => Except.ok (some (mkEp none))

def parseItems (dateISO : List Char → Option (List Char)) :
    List (List Char) → Except Unit (List Episode)
  | [] => Except.ok []
  | it :: rest =>
    match parseItem dateISO it with
    | .error e => .error e
    | .ok none => parseItems dateISO rest
    | .ok (some ep) =>
      match parseItems dateISO rest with
      | .error e => .error e
      | .ok eps => .ok (ep :: eps)

/-- parseRSS: split on `<item>`, drop the channel prefix, collect the
episodes that have a truthy enclosure url. -/
def parseRSS (dateISO : List Char → Option (List Char)) (xml : List Char) :
    Except Unit (List Episode) :=
  parseItems dateISO ((splitOnLit itemOpenLit xml).drop 1)

/-- Channel metadata (the constant `links` object is omitted). -/
structure ShowMeta where
  title : List Char
  description : List Char
  image : List Char
  author : List Char
deriving DecidableEq, Repr

def defaultShowImage : List Char :=
  "https://megaphone.imgix.net/podcasts/bcb63e62-d56f-11eb-9e47-43b3c17dbba3/image/The_Breakdown_Show_Art.jpg".data

/-- parseShowMetadata.  title/description/author use the channel-scoped
extractTag; the image first tries extractAttribute, whose search is NOT
channel-scoped (the fourth argument passed at this call site does not
exist in the function's signature). -/
def parseShowMetadata (xml : List Char) : ShowMeta :=
  { title := jsOrL (extractTag xml "title".data true) "The Breakdown".data
    description := jsOrL (extractTag xml "description".data true) []
    image := jsOrL (extractAttribute xml "itunes:image".data "href".data)
      (jsOrL (extractTag xml "url".data true) defaultShowImage)
    author := jsOrL (extractTag xml "itunes:author".data true) "NLW".data }

inductive PodcastBody where
  | ok : ShowMeta → List Episode → PodcastBody
  | err : String → PodcastBody
deriving DecidableEq, Repr

structure PodcastResponse where
  status : Nat
  lastUpdated : String
  body : PodcastBody
deriving DecidableEq, Repr

/-- The podcast handler: fetch failure or a parse exception lands in the
catch branch with status 500; success responds 200 with the first five
episodes. -/
def podcastHandler (dateISO : List Char → Option (List Char)) (rss : Option (List Char))
    (nowIso : String) : PodcastResponse :=
  match rss with
  | none => ⟨500, nowIso, .err "Failed to fetch podcast feed"⟩
  | some xml =>
    match parseRSS dateISO xml with
    | .error _ => ⟨500, nowIso, .err "Failed to fetch podcast feed"⟩
    | .ok episodes => ⟨200, nowIso, .ok (parseShowMetadata xml) (episodes.take 5)⟩

/-! ## Concrete inputs used in witnesses and counterexamples -/

def samplePriceData : PriceData := ⟨⟨100, 1, 1000⟩, ⟨50, 2, 500⟩⟩

def sampleGlobalInfo : GlobalInfo := ⟨1000, 100, 1, 50, 12, 9000⟩

def sampleMarketUp : PriceData × GlobalInfo := (samplePriceData, sampleGlobalInfo)

def sampleCoin : Coin :=
  ⟨"bitcoin", "BTC", "Bitcoin", "img", 100, 1000, 1, 10, 0, 0, 0, 200, "d", -50⟩

/-- An upstream funding response whose BTC entry averages to an 8-hour
rate of 0.0001. -/
def c7FundingUp : Option (Option FundingBtc) := some (some ⟨[some (1/10000)]⟩)

/-- An RSS document whose channel has no itunes:image, while its single
episode item does. -/
def c9Xml : List Char :=
  "<rss><channel><title>MyShow</title><description>D</description></channel><item><title>Ep1</title><itunes:image href=\"EP.jpg\"/></item></rss>".data

/-- The channel-scoped prefix of c9Xml (text before the first item), the
region a scoped attribute search would be limited to. -/
def c9ChannelPart : List Char :=
  match breakOnLit itemOpenLit c9Xml with
  | some p => p.1
  | none => c9Xml

def c10Xml : List Char :=
  "<r><item><title>A</title><enclosure url=\"a.mp3\"/></item></r>".data

def c10DateISO : List Char → Option (List Char) := fun s => some s

def c10Episodes : List Episode :=
  match parseRSS c10DateISO c10Xml with
  | .ok l => l.take 5
  | .error _ => []

/-! ## Theorems -/

/-- C3: if the market-snapshot handler's first call succeeds at t=0
(populating the cache) and the upstream fails on the later fetch, a call at
t=301s (past the 300s window) returns the t=0 payload with cached=true,
stale=true, a 301s cacheAge and an error annotation — not the hard-coded
fallback (no fallback flag) — because a cache entry exists. -/
theorem C3_stale_over_fallback (u : PriceData × GlobalInfo) (iso0 iso1 : String) :
    (marketCacheHandler ((marketCacheHandler initialMarketCache 0 iso0 (some u)).2.1)
        301000 iso1 none).1 =
      { status := 200
        body := (marketCacheHandler initialMarketCache 0 iso0 (some u)).1.body
        cached := some true
        cacheAge := some 301
        stale := some true
        error := some "Using stale data due to API error"
        fallback := none
        source := none } := by
  simp only [marketCacheHandler, initialMarketCache, marketFetchPath]
  norm_num [MARKET_CACHE_DURATION, jsRound]

/-- C3 witness: the stale-serving scenario at a concrete payload. -/
theorem C3_stale_over_fallback_witness :
    (marketCacheHandler ((marketCacheHandler initialMarketCache 0 "a" (some sampleMarketUp)).2.1)
        301000 "b" none).1.stale = some true :=
  by rw [C3_stale_over_fallback sampleMarketUp "a" "b"]

/-- C1 counterexample: the personal-data handler — which is not the
top-100-coins endpoint — responds with a 500-class status when its cache is
empty and the upstream fetch fails, refuting the claim that the
top-100-coins endpoint is the only handler that ever returns a 500-class
response. -/
theorem C1_counterexample :
    (personalCacheHandler (⟨none, 0, none⟩ : PersonalCacheState Unit) 0 "2026-02-03" "iso" none).1.status
      = 500 := rfl

/-- C1 amended: every read path with a fallback payload defined (market
snapshot, market mood, daily metric, ETF flows) never responds with a 5xx
status; the endpoints that return a 500-class response when no cache and no
fallback exist are the top-100-coins endpoint, the personal-data endpoint
and the podcast-feed endpoint (the latter on upstream/parse failure). -/
theorem C1_amended :
    (∀ c now iso up, (marketCacheHandler c now iso up).1.status = 200) ∧
    (∀ g cs h iso, (marketMoodHandler g cs h iso).status = 200) ∧
    (∀ d u iso, (dailyMetricHandler d u iso).status = 200) ∧
    (∀ k raw iso, (etfFlowsHandler k raw iso).status = 200) ∧
    (∀ c now iso up,
      (coinsCacheHandler c now iso up).1.status = 500 ↔ c.data = none ∧ up = none) ∧
    (∀ (α : Type) (c : PersonalCacheState α) now today iso up,
      (personalCacheHandler c now today iso up).1.status = 500 ↔ c.data = none ∧ up = none) ∧
    (∀ f iso, (podcastHandler f none iso).status = 500) := by
  refine ⟨?_, ?_, ?_, ?_, ?_, ?_, ?_⟩
  · intro c now iso up
    rcases hc : c.data with _ | d <;> rcases up with _ | u <;>
      simp only [marketCacheHandler, marketFetchPath, hc] <;>
      (try split) <;> simp
  · intro g cs h iso
    rcases g with _ | g <;> rcases cs with _ | cs <;> simp [marketMoodHandler]
  · intro d u iso
    rfl
  · intro k raw iso
    rcases k with _ | k <;> rcases raw with _ | raw <;>
      simp only [etfFlowsHandler] <;> (try split) <;> simp
  · intro c now iso up
    rcases hc : c.data with _ | d <;> rcases up with _ | u <;>
      simp only [coinsCacheHandler, coinsFetchPath, hc] <;>
      (try split) <;> simp
  · intro α c now today iso up
    rcases hc : c.data with _ | d <;> rcases up with _ | u <;>
      simp only [personalCacheHandler, personalFetchPath, hc] <;>
      (try split) <;> simp
  · intro f iso
    rfl

/-- C2 counterexample: the daily-metric endpoint keeps no in-process cache,
so an invocation following a successful one never returns cached=true (no
`cached` key is emitted at all) and always runs its fetcher again, refuting
the claim's 24-hour-FreshnessWindow clause for this endpoint. -/
theorem C2_counterexample :
    (dailyMetricHandler 1 failedMetricUpstreams "2026-02-03T00:00:00Z").cached = none ∧
    (dailyMetricHandler 1 failedMetricUpstreams "2026-02-03T00:00:00Z").fetched = true :=
  ⟨rfl, rfl⟩

/-- C2 amended: for the market-snapshot (5-minute window) and top-100-coins
(15-minute window) endpoints, if a first invocation misses its cache and
fetches fresh data successfully at time t1, any second invocation at
t2 within the window of t1 returns cached=true, the identical payload
(modulo the cacheAge/cached annotations), a 200 status, and does not
contact the upstream; the daily-metric endpoint keeps no in-process cache,
emits no cached flag and re-runs its fetcher on every invocation. -/
theorem C2_amended :
    (∀ (c : MarketCacheState) (t1 t2 : Int) (iso1 iso2 : String)
        (u : PriceData × GlobalInfo) (up2 : Option (PriceData × GlobalInfo)),
      (c.data = none ∨ MARKET_CACHE_DURATION ≤ t1 - c.timestamp) →
      0 ≤ t2 - t1 → t2 - t1 < MARKET_CACHE_DURATION →
      (marketCacheHandler (marketCacheHandler c t1 iso1 (some u)).2.1 t2 iso2 up2).1.cached
          = some true ∧
      (marketCacheHandler (marketCacheHandler c t1 iso1 (some u)).2.1 t2 iso2 up2).1.body
          = (marketCacheHandler c t1 iso1 (some u)).1.body ∧
      (marketCacheHandler (marketCacheHandler c t1 iso1 (some u)).2.1 t2 iso2 up2).2.2
          = false ∧
      (marketCacheHandler (marketCacheHandler c t1 iso1 (some u)).2.1 t2 iso2 up2).1.status
          = 200) ∧
    (∀ (c : CoinsCacheState) (t1 t2 : Int) (iso1 iso2 : String)
        (u : List Coin) (up2 : Option (List Coin)),
      (c.data = none ∨ COINS_CACHE_DURATION ≤ t1 - c.timestamp) →
      0 ≤ t2 - t1 → t2 - t1 < COINS_CACHE_DURATION →
      (coinsCacheHandler (coinsCacheHandler c t1 iso1 (some u)).2.1 t2 iso2 up2).1.cached
          = some true ∧
      (coinsCacheHandler (coinsCacheHandler c t1 iso1 (some u)).2.1 t2 iso2 up2).1.body
          = (coinsCacheHandler c t1 iso1 (some u)).1.body ∧
      (coinsCacheHandler (coinsCacheHandler c t1 iso1 (some u)).2.1 t2 iso2 up2).2.2
          = false ∧
      (coinsCacheHandler (coinsCacheHandler c t1 iso1 (some u)).2.1 t2 iso2 up2).1.status
          = 200) ∧
    (∀ d u iso, (dailyMetricHandler d u iso).cached = none ∧
      (dailyMetricHandler d u iso).fetched = true) := by
  refine ⟨?_, ?_, ?_⟩
  · intro c t1 t2 iso1 iso2 u up2 hmiss h0 h2
    have hfirst : (marketCacheHandler c t1 iso1 (some u)).2.1
        = { data := some ((marketCacheHandler c t1 iso1 (some u)).1.body), timestamp := t1 } := by
      rcases hmiss with hn | hl
      · simp [marketCacheHandler, hn, marketFetchPath]
      · rcases hd : c.data with _ | d
        · simp [marketCacheHandler, hd, marketFetchPath]
        · simp [marketCacheHandler, hd, marketFetchPath, if_neg (by omega : ¬ t1 - c.timestamp < MARKET_CACHE_DURATION)]
    rw [hfirst]
    simp [marketCacheHandler, if_pos (by omega : t2 - t1 < MARKET_CACHE_DURATION)]
  · intro c t1 t2 iso1 iso2 u up2 hmiss h0 h2
    have hfirst : (coinsCacheHandler c t1 iso1 (some u)).2.1
        = { data := some { coins := u, count := u.length, updated := iso1, updatedTimestamp := t1 }, timestamp := t1 } := by
      rcases hmiss with hn | hl
      · simp [coinsCacheHandler, hn, coinsFetchPath]
      · rcases hd : c.data with _ | d
        · simp [coinsCacheHandler, hd, coinsFetchPath]
        · simp [coinsCacheHandler, hd, coinsFetchPath, if_neg (by omega : ¬ t1 - c.timestamp < COINS_CACHE_DURATION)]
    have hbody : (coinsCacheHandler c t1 iso1 (some u)).1.body
        = .payload { coins := u, count := u.length, updated := iso1, updatedTimestamp := t1 } := by
      rcases hmiss with hn | hl
      · simp [coinsCacheHandler, hn, coinsFetchPath]
      · rcases hd : c.data with _ | d
        · simp [coinsCacheHandler, hd, coinsFetchPath]
        · simp [coinsCacheHandler, hd, coinsFetchPath, if_neg (by omega : ¬ t1 - c.timestamp < COINS_CACHE_DURATION)]
    rw [hfirst, hbody]
    simp [coinsCacheHandler, if_pos (by omega : t2 - t1 < COINS_CACHE_DURATION)]
  · intro d u iso
    exact ⟨rfl, rfl⟩

/-- C2 witness: the fresh-hit scenario at concrete inputs — first call at
t=0 from a cold cache, second call at t=1s with a failing upstream. -/
theorem C2_amended_witness :
    (marketCacheHandler (marketCacheHandler initialMarketCache 0 "a" (some sampleMarketUp)).2.1
        1000 "b" none).1.cached = some true ∧
    (marketCacheHandler (marketCacheHandler initialMarketCache 0 "a" (some sampleMarketUp)).2.1
        1000 "b" none).2.2 = false :=
  ⟨(C2_amended.1 initialMarketCache 0 1000 "a" "b" sampleMarketUp none (Or.inl rfl)
      (by norm_num) (by norm_num [MARKET_CACHE_DURATION])).1,
   (C2_amended.1 initialMarketCache 0 1000 "a" "b" sampleMarketUp none (Or.inl rfl)
      (by norm_num) (by norm_num [MARKET_CACHE_DURATION])).2.2.1⟩

/-- C4 counterexample: the market-snapshot fallback response carries no
`source` key at all (in particular not source="fallback"); it is marked
with a `fallback:true` flag instead, refuting the claim that every
documented fallback is marked source="fallback". -/
theorem C4_counterexample :
    (marketCacheHandler initialMarketCache 0 "t" none).1.source = none ∧
    (marketCacheHandler initialMarketCache 0 "t" none).1.fallback = some true :=
  ⟨rfl, rfl⟩

/-- C4 amended: for the market-snapshot and daily-metric endpoints, if no
call has ever succeeded (cache empty) and the upstream fetch fails, the
emitted body equals the documented fallback payload exactly, field for
field, except for the updated timestamp, schema-identical to a normal
response and sent with a success status; the daily-metric fallbacks are
marked source="fallback", while the market-snapshot fallback is marked
fallback=true and carries no source field. -/
theorem C4_amended :
    (∀ (c : MarketCacheState) (t : Int) (iso : String), c.data = none →
      (marketCacheHandler c t iso none).1.status = 200 ∧
      (marketCacheHandler c t iso none).1.body = getFallbackData iso t ∧
      (marketCacheHandler c t iso none).1.fallback = some true ∧
      (marketCacheHandler c t iso none).1.source = none) ∧
    (∀ iso : String,
      (dailyMetricHandler 1 failedMetricUpstreams iso).body = getFallbackFearGreed ∧
      (dailyMetricHandler 2 failedMetricUpstreams iso).body = btcDominanceFallback ∧
      (dailyMetricHandler 3 failedMetricUpstreams iso).body = getFallbackFundingRates ∧
      (dailyMetricHandler 4 failedMetricUpstreams iso).body = getFallbackOpenInterest ∧
      (dailyMetricHandler 5 failedMetricUpstreams iso).body = stablecoinFallback ∧
      (dailyMetricHandler 6 failedMetricUpstreams iso).body = stablecoinFallback ∧
      (dailyMetricHandler 0 failedMetricUpstreams iso).body = stablecoinFallback ∧
      (∀ d, (dailyMetricHandler d failedMetricUpstreams iso).status = 200)) ∧
    getFallbackFearGreed.source = "fallback" ∧
    btcDominanceFallback.source = "fallback" ∧
    getFallbackFundingRates.source = "fallback" ∧
    getFallbackOpenInterest.source = "fallback" ∧
    stablecoinFallback.source = "fallback" := by
  refine ⟨?_, ?_, rfl, rfl, rfl, rfl, rfl⟩
  · intro c t iso hc
    simp [marketCacheHandler, hc, marketFetchPath]
  · intro iso
    exact ⟨rfl, rfl, rfl, rfl, rfl, rfl, rfl, fun d => rfl⟩

/-- C4 witness: the cold-cache fallback at concrete inputs. -/
theorem C4_amended_witness :
    (marketCacheHandler initialMarketCache 5 "t" none).1.body = getFallbackData "t" 5 :=
  (C4_amended.1 initialMarketCache 5 "t" rfl).2.1

/-- C5: the daily metric selector is a total pure function of the UTC
day-of-week integer: 1 selects fear_greed, 2 btc_dominance,
3 funding_rates, 4 open_interest, and 5 (Friday), 6 (Saturday) and
0 (Sunday) all select stablecoin_supply — whatever the upstream results. -/
theorem C5_daily_selector (u : MetricUpstreams) :
    (selectDailyMetric 1 u).metric = "fear_greed" ∧
    (selectDailyMetric 2 u).metric = "btc_dominance" ∧
    (selectDailyMetric 3 u).metric = "funding_rates" ∧
    (selectDailyMetric 4 u).metric = "open_interest" ∧
    (selectDailyMetric 5 u).metric = "stablecoin_supply" ∧
    (selectDailyMetric 6 u).metric = "stablecoin_supply" ∧
    (selectDailyMetric 0 u).metric = "stablecoin_supply" := by
  have hf : ∀ x, (getFearAndGreed x).metric = "fear_greed" := by
    intro x
    rcases x with _ | l
    · rfl
    · rcases l with _ | ⟨e, r⟩ <;> rfl
  have hs : ∀ x, (getStablecoinSupply x).metric = "stablecoin_supply" := by
    intro x
    rcases x with _ | l
    · rfl
    · rcases l with _ | ⟨c, cs⟩ <;> rfl
  have hb : ∀ x, (getBTCDominance x).metric = "btc_dominance" := by
    intro x; rcases x with _ | g <;> rfl
  have hfr : ∀ x, (getFundingRates x).metric = "funding_rates" := by
    intro x
    rcases x with _ | y
    · rfl
    · rcases y with _ | b <;> rfl
  have ho : ∀ x, (getOpenInterest x).metric = "open_interest" := by
    intro x
    rcases x with _ | y
    · rfl
    · rcases y with _ | b <;> rfl
  exact ⟨hf u.fng, hb u.global, hfr u.funding, ho u.openInt,
    hs u.stables, hs u.stables, hs u.stables⟩

/-- C6: the Fear & Greed interpretation is chosen by inclusive upper
bounds in ascending order, first match winning: v ≤ 20 bearish,
21-40 cautious, 41-60 neutral, 61-80 optimistic, above 80 bullish; in
particular 20 ↦ bearish, 21 ↦ cautious, 60 ↦ neutral, 61 ↦ optimistic,
81 ↦ bullish, and the Monday fetcher's interpretation field is exactly
this function of the current value. -/
theorem C6_fear_greed_thresholds :
    (∀ v : Int, v ≤ 20 → (fearGreedInterpretation v).1 = "bearish") ∧
    (∀ v : Int, 20 < v → v ≤ 40 → (fearGreedInterpretation v).1 = "cautious") ∧
    (∀ v : Int, 40 < v → v ≤ 60 → (fearGreedInterpretation v).1 = "neutral") ∧
    (∀ v : Int, 60 < v → v ≤ 80 → (fearGreedInterpretation v).1 = "optimistic") ∧
    (∀ v : Int, 80 < v → (fearGreedInterpretation v).1 = "bullish") ∧
    (fearGreedInterpretation 20).1 = "bearish" ∧
    (fearGreedInterpretation 21).1 = "cautious" ∧
    (fearGreedInterpretation 60).1 = "neutral" ∧
    (fearGreedInterpretation 61).1 = "optimistic" ∧
    (fearGreedInterpretation 81).1 = "bullish" ∧
    (∀ (e : FngEnt) (rest : List FngEnt),
      (getFearAndGreed (some (e :: rest))).interpretation
        = (fearGreedInterpretation e.value).1) := by
  refine ⟨?_, ?_, ?_, ?_, ?_, rfl, rfl, rfl, rfl, rfl, fun e rest => rfl⟩
  · intro v h
    simp [fearGreedInterpretation, h]
  · intro v h1 h2
    simp [fearGreedInterpretation, h2, show ¬ v ≤ 20 by omega]
  · intro v h1 h2
    simp [fearGreedInterpretation, h2, show ¬ v ≤ 20 by omega, show ¬ v ≤ 40 by omega]
  · intro v h1 h2
    simp [fearGreedInterpretation, h2, show ¬ v ≤ 20 by omega, show ¬ v ≤ 40 by omega,
      show ¬ v ≤ 60 by omega]
  · intro v h
    simp [fearGreedInterpretation, show ¬ v ≤ 20 by omega, show ¬ v ≤ 40 by omega,
      show ¬ v ≤ 60 by omega, show ¬ v ≤ 80 by omega]

/-- C6 witness: one value inside each threshold bucket. -/
theorem C6_fear_greed_thresholds_witness :
    (fearGreedInterpretation 10).1 = "bearish" ∧
    (fearGreedInterpretation 35).1 = "cautious" ∧
    (fearGreedInterpretation 50).1 = "neutral" ∧
    (fearGreedInterpretation 70).1 = "optimistic" ∧
    (fearGreedInterpretation 90).1 = "bullish" :=
  ⟨C6_fear_greed_thresholds.1 10 (by decide),
   C6_fear_greed_thresholds.2.1 35 (by decide) (by decide),
   C6_fear_greed_thresholds.2.2.1 50 (by decide) (by decide),
   C6_fear_greed_thresholds.2.2.2.1 70 (by decide) (by decide),
   C6_fear_greed_thresholds.2.2.2.2.1 90 (by decide)⟩

/-- C7: at an average 8-hour funding rate of 0.0001 the code renders the
rate itself as "0.0100" percent but the subtitle as "≈ 0% APR", because
`annualized = avgRate * 3 * 365 = 0.1095` is never multiplied by 100 —
while the endpoint's own fallback payload pairs the same displayed rate
0.0100% with the subtitle "≈ 11% APR" the claim (and the spec) expect. -/
theorem C7_funding_subtitle_eval :
    (getFundingRates c7FundingUp).subtitle = some "≈ 0% APR" ∧
    (getFundingRates c7FundingUp).value = "0.0100" ∧
    (getFundingRates c7FundingUp).numericValue = 1/100 ∧
    (getFundingRates c7FundingUp).subtitle ≠ some "≈ 11% APR" ∧
    getFallbackFundingRates.value = "0.0100" ∧
    getFallbackFundingRates.subtitle = some "≈ 11% APR" := by
  have hsub : (getFundingRates c7FundingUp).subtitle = some "≈ 0% APR" := by
    simp only [getFundingRates, c7FundingUp]
    norm_num [renderFixed, toFixedInt]
    rfl
  have hval : (getFundingRates c7FundingUp).value = "0.0100" := by
    simp only [getFundingRates, c7FundingUp]
    norm_num [renderFixed, toFixedInt]
    rfl
  have hnum : (getFundingRates c7FundingUp).numericValue = 1/100 := by
    simp only [getFundingRates, c7FundingUp]
    norm_num
  exact ⟨hsub, hval, hnum, by rw [hsub]; simp, rfl, rfl⟩

/-- C8: the market-mood market-cap-to-volume division is guarded — a zero
24h-volume denominator yields the fixed constant 20, and a positive
denominator yields the true quotient. -/
theorem C8_mv_guard :
    (∀ cap : ℚ, mvRatio24hOf cap 0 = 20) ∧
    (∀ cap vol : ℚ, 0 < vol → mvRatio24hOf cap vol = cap / vol) := by
  constructor
  · intro cap; simp [mvRatio24hOf]
  · intro cap vol h; simp [mvRatio24hOf, h]

/-- C8 witness: the guarded division at a concrete positive volume. -/
theorem C8_mv_guard_witness : mvRatio24hOf 100 4 = 25 ∧ (0 : ℚ) < 4 :=
  ⟨by rw [C8_mv_guard.2 100 4 (by norm_num)]; norm_num, by norm_num⟩

/-- C9: evaluation at the failing input.  c9Xml has no channel-level
itunes:image (its channel prefix contains no href match at all), yet
parseShowMetadata returns the href found inside the episode item as the
channel-level show image, because extractAttribute ignores the
channel-scoping argument passed to it.  The tag-based fields (title) are
correctly restricted to the channel prefix. -/
theorem C9_channel_scope_eval :
    (parseShowMetadata c9Xml).image = "EP.jpg".data ∧
    extractAttribute c9ChannelPart "itunes:image".data "href".data = none ∧
    (parseShowMetadata c9Xml).title = "MyShow".data := by
  refine ⟨?_, ?_, ?_⟩ <;> decide

lemma parseItem_audioUrl_ne_nil (f : List Char → Option (List Char)) (it : List Char)
    (ep : Episode) (h : parseItem f it = .ok (some ep)) : ep.audioUrl ≠ [] := by
  simp only [parseItem] at h
  split at h
  · exact absurd h (by simp)
  next u =>
    split at h
    · exact absurd h (by simp)
    next hu =>
      split at h
      next p hp =>
        split at h
        · exact absurd h (by simp)
        next iso hiso =>
          simp only [Except.ok.injEq, Option.some.injEq] at h
          rw [← h]
          exact hu
      next hp =>
        simp only [Except.ok.injEq, Option.some.injEq] at h
        rw [← h]
        exact hu

lemma parseItems_audioUrl_ne_nil (f : List Char → Option (List Char)) :
    ∀ (its : List (List Char)) (eps : List Episode), parseItems f its = .ok eps →
      ∀ e ∈ eps, e.audioUrl ≠ [] := by
  intro its
  induction its with
  | nil =>
    intro eps h e he
    simp only [parseItems, Except.ok.injEq] at h
    subst h
    simp at he
  | cons it rest ih =>
    intro eps h e he
    simp only [parseItems] at h
    split at h
    · exact absurd h (by simp)
    · exact ih eps h e he
    next ep hpi =>
      split at h
      · exact absurd h (by simp)
      next eps' hrest =>
        simp only [Except.ok.injEq] at h
        subst h
        rcases List.mem_cons.mp he with he | he
        · rw [he]
          exact parseItem_audioUrl_ne_nil f it ep hpi
        · exact ih eps' hrest e he

/-- C10: whenever the podcast handler produces a success response, every
episode in it has a non-empty audioUrl (items whose enclosure lacks a
truthy url are skipped) and the episodes array has at most 5 entries. -/
theorem C10_podcast_episodes (f : List Char → Option (List Char)) (xml : List Char)
    (iso : String) (sm : ShowMeta) (eps : List Episode)
    (h : podcastHandler f (some xml) iso = ⟨200, iso, .ok sm eps⟩) :
    (∀ e ∈ eps, e.audioUrl ≠ []) ∧ eps.length ≤ 5 := by
  simp only [podcastHandler] at h
  split at h
  · exact absurd h (by simp)
  next eps' hparse =>
    simp only [PodcastResponse.mk.injEq, PodcastBody.ok.injEq] at h
    rw [← h.2.2.2]
    constructor
    · intro e he
      exact parseItems_audioUrl_ne_nil f _ eps' hparse e (List.mem_of_mem_take he)
    · exact List.length_take_le 5 eps'

/-- C10 witness: the contract evaluated on a one-item feed. -/
theorem C10_podcast_episodes_witness :
    (∀ e ∈ c10Episodes, e.audioUrl ≠ []) ∧ c10Episodes.length ≤ 5 :=
  C10_podcast_episodes c10DateISO c10Xml "t" (parseShowMetadata c10Xml) c10Episodes (by rfl)

end Litmus
